import Mathlib

/-!
Verification of the go-observability two-service pipeline.

The repository has two Go services. Service A (the edge validator) decodes
a JSON request carrying a CEP (Brazilian postal code), validates it,
forwards it to service B, and relays service B's response. Service B (the
orchestrator) re-validates the CEP, resolves it to a locality through the
ViaCEP collaborator, resolves the locality to a Celsius temperature through
the weather collaborator (with a fallback when no API key is configured),
converts the temperature, and answers.

The embedding below translates the decision logic of both services.
Network and JSON-decoding effects are made explicit: an outbound HTTP call
is modelled by the value the handler observes, namely transport failure or
a response carrying a status code and the result of decoding the body
(with decoding failure represented by none).
-/

/-- Byte length of a string under UTF-8, modelling the Go builtin len
applied to a string value. Go strings are byte slices, so len counts
bytes, not characters. -/
def goLen (s : String) : Nat := (s.data.map Char.utf8Size).sum

/-- Membership in the Go regexp character class for digits in its default
(non-Unicode) mode: exactly the ASCII digits 0 through 9. -/
def isDigitChar (c : Char) : Bool := '0' ≤ c && c ≤ '9'

/-- Match of the anchored eight-digit Go pattern against a whole string:
the string consists of exactly eight ASCII digit characters. -/
def matchEightDigits (s : String) : Bool :=
  s.data.length == 8 && s.data.all isDigitChar

/-- The function validateCEP, textually identical in service-a/main.go and
in service-b: reject when the byte length differs from 8, otherwise match
the anchored eight-digit pattern. -/
def validateCEP (cep : String) : Bool :=
  if goLen cep ≠ 8 then false else matchEightDigits cep

/-- The JSON request body shared by both services: a single cep field. -/
structure CEPRequest where
  cep : String
deriving DecidableEq

/-- Decoded body of a ViaCEP lookup response, as service-b declares it. -/
structure ViaCEPResponse where
  cep : String
  logradouro : String
  bairro : String
  localidade : String
  uf : String
  erro : Bool
deriving DecidableEq

/-- Decoded body of a weather-API response; only the current Celsius
temperature is read. Temperatures are embedded as rationals. -/
structure WeatherAPIResponse where
  tempC : ℚ
deriving DecidableEq

/-- Service-b's consolidated success body. -/
structure WeatherResponse where
  city : String
  tempC : ℚ
  tempF : ℚ
  tempK : ℚ
deriving DecidableEq

/-- What a handler observes from one outbound HTTP call: either a
transport failure (client.Do returned an error), or a response with its
status code and a decoded body of type b. -/
inductive HTTPResult (b : Type) where
  | transportFailure : HTTPResult b
  | response (status : Nat) (body : b) : HTTPResult b
deriving DecidableEq

/-- The error classes with which fetchCEPInfo can return a non-nil error:
transport failure, JSON decode failure, or the decoded body carrying
erro = true (the collaborator's not-found marker). -/
inductive CEPFetchError where
  | transport
  | decode
  | notFound
deriving DecidableEq

/-- The function fetchCEPInfo of service-b, as a function of the observed
ViaCEP call. A transport failure or a body that fails to decode is an
error; a decoded body with erro = true is the not-found error; any other
decoded body is returned as is. The response status code is never
inspected. -/
def fetchCEPInfo (call : HTTPResult (Option ViaCEPResponse)) :
    Except CEPFetchError ViaCEPResponse :=
  match call with
  | .transportFailure => .error .transport
  | .response _ body =>
    match body with
    | none => .error .decode
    | some cepResp =>
      if cepResp.erro then .error .notFound else .ok cepResp

/-- The error classes with which fetchWeatherInfo can return a non-nil
error: transport failure, a non-200 status, or a JSON decode failure. -/
inductive WeatherFetchError where
  | transport
  | badStatus (status : Nat)
  | decode
deriving DecidableEq

/-- Inputs of fetchWeatherInfo: the WEATHER_API_KEY environment value (the
empty string models an unset variable, as os.Getenv yields) and the
observed weather-API call. -/
structure WeatherEnv where
  apiKey : String
  call : HTTPResult (Option WeatherAPIResponse)
deriving DecidableEq

/-- The function fetchWeatherInfo of service-b. When the API key is empty
or equals the placeholder "demo_key", it returns the mock body with
Celsius 22.5 without touching the network; otherwise it performs the call
and fails on transport failure, on a status other than 200, or on decode
failure. The first component of the result records whether the outbound
network call was performed, so that the no-network-call property can be
stated. -/
def fetchWeatherInfo (env : WeatherEnv) :
    Bool × Except WeatherFetchError WeatherAPIResponse :=
  if env.apiKey = "" ∨ env.apiKey = "demo_key" then
    (false, .ok { tempC := 22.5 })
  else
    match env.call with
    | .transportFailure => (true, .error .transport)
    | .response status body =>
      if status ≠ 200 then (true, .error (.badStatus status))
      else
        match body with
        | none => (true, .error .decode)
        | some weatherResp => (true, .ok weatherResp)

/-- The function celsiusToFahrenheit of service-b. -/
def celsiusToFahrenheit (celsius : ℚ) : ℚ := celsius * 1.8 + 32

/-- The function celsiusToKelvin of service-b; the offset is exactly 273. -/
def celsiusToKelvin (celsius : ℚ) : ℚ := celsius + 273

/-- A body written by service-b with c.JSON: either the error body with its
message field, or the consolidated weather body. -/
inductive OrchestratorBody where
  | failure (message : String)
  | success (w : WeatherResponse)
deriving DecidableEq

/-- The handler handleWeather of service-b, as a function of the decoded
request (none when ShouldBindJSON fails), the observed ViaCEP call, and
the weather-stage inputs. Returns the HTTP status and the body written. -/
def handleWeather (decoded : Option CEPRequest)
    (cepCall : HTTPResult (Option ViaCEPResponse)) (weatherEnv : WeatherEnv) :
    Nat × OrchestratorBody :=
  match decoded with
  | none => (422, .failure "invalid zipcode")
  | some req =>
    if ¬ validateCEP req.cep then (422, .failure "invalid zipcode")
    else
      match fetchCEPInfo cepCall with
      | .error _ => (404, .failure "can not find zipcode")
      | .ok cepInfo =>
        match (fetchWeatherInfo weatherEnv).2 with
        | .error _ => (500, .failure "failed to fetch weather information")
        | .ok weatherInfo =>
          let tempC := weatherInfo.tempC
          (200, .success { city := cepInfo.localidade, tempC := tempC,
                           tempF := celsiusToFahrenheit tempC,
                           tempK := celsiusToKelvin tempC })

/-- A body written by service-a with c.JSON: either its own error body, or
the re-serialization of whatever decoded payload came back from
service-b. The payload type is opaque to service-a, which decodes into an
untyped value; it is a type parameter here. -/
inductive EdgeBody (b : Type) where
  | failure (message : String)
  | relay (payload : b)
deriving DecidableEq

/-- The handler handleCEP of service-a, as a function of the decoded
request (none when ShouldBindJSON fails) and the observed forwarding call
to service-b, whose response body arrives as the result of JSON-decoding
it (none when the body is not valid JSON). Returns the HTTP status and
the body written. -/
def handleCEP {b : Type} (decoded : Option CEPRequest)
    (forward : HTTPResult (Option b)) : Nat × EdgeBody b :=
  match decoded with
  | none => (422, .failure "invalid zipcode")
  | some req =>
    if ¬ validateCEP req.cep then (422, .failure "invalid zipcode")
    else
      match forward with
      | .transportFailure => (500, .failure "internal server error")
      | .response status body =>
        match body with
        | none => (500, .failure "internal server error")
        | some payload => (status, .relay payload)

/-! ### Concrete fixtures used to evaluate the theorems -/

/-- A decoded ViaCEP body for the Sao Paulo postal code 01310100. -/
def lookupSaoPaulo : ViaCEPResponse :=
  { cep := "01310100", logradouro := "Avenida Paulista", bairro := "Bela Vista",
    localidade := "Sao Paulo", uf := "SP", erro := false }

/-- A decoded ViaCEP body whose locality field is empty and whose erro
field is false: nothing in the ViaCEP JSON schema forbids it, and a body
omitting the localidade key decodes to it. -/
def lookupEmptyCity : ViaCEPResponse :=
  { cep := "01310100", logradouro := "", bairro := "",
    localidade := "", uf := "", erro := false }

/-- A decoded ViaCEP body carrying the not-found marker erro = true. -/
def lookupNotFound : ViaCEPResponse :=
  { cep := "", logradouro := "", bairro := "",
    localidade := "", uf := "", erro := true }

/-- The WeatherResult that the fallback path produces for Sao Paulo. -/
def fallbackSaoPauloResult : WeatherResponse :=
  { city := "Sao Paulo", tempC := 22.5, tempF := celsiusToFahrenheit 22.5,
    tempK := celsiusToKelvin 22.5 }

/-! ### Helper lemmas -/

/-- An ASCII digit occupies one byte in UTF-8. -/
theorem digit_utf8Size (c : Char) (h : isDigitChar c = true) : c.utf8Size = 1 := by
  simp [isDigitChar] at h
  have hv : c.val ≤ '9'.val := h.2
  have hn : c.val.toBitVec.toNat ≤ 57 := by
    rw [UInt32.le_def, BitVec.le_def] at hv
    exact le_trans hv (by decide)
  have hle : c.val ≤ UInt32.ofNatCore 0x7F (by decide) := by
    rw [UInt32.le_def, BitVec.le_def]
    exact le_trans hn (by decide)
  unfold Char.utf8Size
  rw [if_pos hle]

/-- A list of ASCII digits has as many UTF-8 bytes as characters. -/
theorem utf8ByteCount_of_digits (l : List Char)
    (h : ∀ c ∈ l, isDigitChar c = true) :
    (l.map Char.utf8Size).sum = l.length := by
  induction l with
  | nil => rfl
  | cons c cs ih =>
    simp only [List.map_cons, List.sum_cons, List.length_cons]
    rw [digit_utf8Size c (h c (List.mem_cons_self _ _)),
      ih (fun d hd => h d (List.mem_cons_of_mem _ hd))]
    omega

/-! ### C1: the postal-code validator -/

/-- C1: validateCEP returns valid exactly for the strings of length 8 all
of whose characters are decimal digits; as a total Lean function over all
strings it is pure, raises nothing and performs no input or output. -/
theorem validateCEP_iff_eight_digits (s : String) :
    validateCEP s = true ↔
      s.length = 8 ∧ ∀ c ∈ s.data, isDigitChar c = true := by
  constructor
  · intro h
    unfold validateCEP at h
    split at h
    · exact absurd h (by simp)
    · simp only [matchEightDigits, Bool.and_eq_true, beq_iff_eq,
        List.all_eq_true] at h
      exact ⟨h.1, h.2⟩
  · rintro ⟨hlen, hdig⟩
    have hbytes : goLen s = 8 := by
      unfold goLen
      rw [utf8ByteCount_of_digits s.data hdig]
      exact hlen
    unfold validateCEP
    rw [if_neg (by simp [hbytes])]
    simp only [matchEightDigits, Bool.and_eq_true, beq_iff_eq,
      List.all_eq_true]
    exact ⟨hlen, hdig⟩

/-! ### C2: unit-conversion consistency of a 200 result -/

/-- C2: every WeatherResult that handleWeather returns with status 200 has
its Fahrenheit and Kelvin fields computed from its own Celsius field by
the fixed formulas tempF = tempC * 1.8 + 32 and tempK = tempC + 273 (the
offset is exactly 273), so the three fields are mutually consistent. -/
theorem handleWeather_temps_consistent (decoded : Option CEPRequest)
    (cepCall : HTTPResult (Option ViaCEPResponse)) (weatherEnv : WeatherEnv)
    (w : WeatherResponse)
    (h : handleWeather decoded cepCall weatherEnv = (200, .success w)) :
    w.tempF = w.tempC * 1.8 + 32 ∧ w.tempK = w.tempC + 273 := by
  unfold handleWeather at h
  split at h
  · exact absurd h (by simp)
  · split at h
    · exact absurd h (by simp)
    · split at h
      · exact absurd h (by simp)
      · split at h
        · exact absurd h (by simp)
        · have hw := congrArg Prod.snd h
          simp only at hw
          cases hw
          exact ⟨rfl, rfl⟩

/-- Evaluation of the C2 theorem on the run that validates 01310100,
resolves it to Sao Paulo and takes the no-credential fallback. -/
theorem handleWeather_temps_consistent_witness :
    celsiusToFahrenheit 22.5 = (22.5 : ℚ) * 1.8 + 32 ∧
    celsiusToKelvin 22.5 = (22.5 : ℚ) + 273 :=
  handleWeather_temps_consistent (some { cep := "01310100" })
    (.response 200 (some lookupSaoPaulo))
    { apiKey := "", call := .transportFailure }
    fallbackSaoPauloResult rfl

/-! ### C3: the orchestrator's error-to-status mapping -/

/-- C3: handleWeather maps each failure class to its fixed status and
message: a postal code failing validation gives 422 "invalid zipcode";
a failing lookup call (transport error, decode error, or the not-found
marker, all the error classes of fetchCEPInfo) gives 404 "can not find
zipcode"; a failing weather stage (non-success response, decode failure,
or transport error) gives 500 "failed to fetch weather information"; and
when every stage succeeds it gives 200 with the consolidated result. -/
theorem handleWeather_status_map (req : CEPRequest)
    (cepCall : HTTPResult (Option ViaCEPResponse)) (weatherEnv : WeatherEnv) :
    (validateCEP req.cep = false →
      handleWeather (some req) cepCall weatherEnv =
        (422, .failure "invalid zipcode")) ∧
    (∀ e, validateCEP req.cep = true → fetchCEPInfo cepCall = .error e →
      handleWeather (some req) cepCall weatherEnv =
        (404, .failure "can not find zipcode")) ∧
    (∀ e cepInfo, validateCEP req.cep = true →
      fetchCEPInfo cepCall = .ok cepInfo →
      (fetchWeatherInfo weatherEnv).2 = .error e →
      handleWeather (some req) cepCall weatherEnv =
        (500, .failure "failed to fetch weather information")) ∧
    (∀ cepInfo w, validateCEP req.cep = true →
      fetchCEPInfo cepCall = .ok cepInfo →
      (fetchWeatherInfo weatherEnv).2 = .ok w →
      handleWeather (some req) cepCall weatherEnv =
        (200, .success { city := cepInfo.localidade, tempC := w.tempC,
                         tempF := celsiusToFahrenheit w.tempC,
                         tempK := celsiusToKelvin w.tempC })) := by
  refine ⟨?_, ?_, ?_, ?_⟩ <;> intros <;> simp_all [handleWeather]

/-- Evaluation of the C3 theorem: one concrete run through each of the
four outcome classes. -/
theorem handleWeather_status_map_witness :
    handleWeather (some { cep := "123" }) (.response 200 none)
      { apiKey := "", call := .transportFailure } =
        (422, .failure "invalid zipcode") ∧
    handleWeather (some { cep := "01310100" }) .transportFailure
      { apiKey := "", call := .transportFailure } =
        (404, .failure "can not find zipcode") ∧
    handleWeather (some { cep := "01310100" })
      (.response 200 (some lookupSaoPaulo))
      { apiKey := "realkey", call := .transportFailure } =
        (500, .failure "failed to fetch weather information") ∧
    handleWeather (some { cep := "01310100" })
      (.response 200 (some lookupSaoPaulo))
      { apiKey := "", call := .transportFailure } =
        (200, .success fallbackSaoPauloResult) :=
  ⟨(handleWeather_status_map { cep := "123" } (.response 200 none)
      { apiKey := "", call := .transportFailure }).1 rfl,
   (handleWeather_status_map { cep := "01310100" } .transportFailure
      { apiKey := "", call := .transportFailure }).2.1 .transport rfl rfl,
   (handleWeather_status_map { cep := "01310100" }
      (.response 200 (some lookupSaoPaulo))
      { apiKey := "realkey", call := .transportFailure }).2.2.1 .transport
      lookupSaoPaulo rfl rfl rfl,
   (handleWeather_status_map { cep := "01310100" }
      (.response 200 (some lookupSaoPaulo))
      { apiKey := "", call := .transportFailure }).2.2.2 lookupSaoPaulo
      { tempC := 22.5 } rfl rfl rfl⟩

/-! ### C4: the no-credential fallback of the weather stage -/

/-- C4: when no weather API key is configured (the empty environment
value) or the key equals the placeholder "demo_key", fetchWeatherInfo
performs no network call (first component false) and succeeds with the
fixed Celsius value 22.5. -/
theorem fetchWeatherInfo_fallback (env : WeatherEnv)
    (h : env.apiKey = "" ∨ env.apiKey = "demo_key") :
    fetchWeatherInfo env = (false, .ok { tempC := 22.5 }) := by
  unfold fetchWeatherInfo
  rw [if_pos h]

/-- Evaluation of the C4 theorem with an unset key. -/
theorem fetchWeatherInfo_fallback_witness :
    fetchWeatherInfo { apiKey := "", call := .transportFailure } =
      (false, .ok { tempC := 22.5 }) :=
  fetchWeatherInfo_fallback { apiKey := "", call := .transportFailure }
    (Or.inl rfl)

/-! ### C5: the edge relay (corrected) -/

/-- C5 counterexample: the claim that a transport-level success is always
relayed with service-b's exact status fails when the response body is not
valid JSON. With the valid code 01310100 and a 200 response whose body
fails to decode, handleCEP answers 500 "internal server error", not 200. -/
theorem handleCEP_relay_counterexample :
    handleCEP (some { cep := "01310100" })
      (.response 200 (none : Option Nat)) =
        (500, .failure "internal server error") ∧ (500 : Nat) ≠ 200 :=
  ⟨rfl, by decide⟩

/-- C5 amended: for every request whose postal code passes validation,
whose forwarding call succeeds at the transport level, and whose response
body decodes as JSON, handleCEP returns exactly service-b's status code
together with the decoded payload re-serialized, without interpreting
it. -/
theorem handleCEP_relay (b : Type) (req : CEPRequest) (status : Nat)
    (payload : b) (h : validateCEP req.cep = true) :
    handleCEP (some req) (.response status (some payload)) =
      (status, .relay payload) := by
  simp [handleCEP, h]

/-- Evaluation of the amended C5 theorem: a 404 body is relayed with its
status. -/
theorem handleCEP_relay_witness :
    handleCEP (some { cep := "01310100" }) (.response 404 (some (7 : Nat))) =
      (404, .relay 7) :=
  handleCEP_relay Nat { cep := "01310100" } 404 7 rfl

/-! ### C6: the edge error mapping -/

/-- C6: handleCEP maps its own failure classes to fixed outcomes: a body
that fails to decode as a request with a cep field gives 422 "invalid
zipcode"; a decoded postal code failing validation gives the same 422
outcome; a transport failure on the forwarding call gives 500 "internal
server error". -/
theorem handleCEP_error_map (b : Type) (forward : HTTPResult (Option b)) :
    (handleCEP none forward = (422, .failure "invalid zipcode")) ∧
    (∀ req, validateCEP req.cep = false →
      handleCEP (some req) forward = (422, .failure "invalid zipcode")) ∧
    (∀ req, validateCEP req.cep = true →
      handleCEP (some req) (.transportFailure : HTTPResult (Option b)) =
        (500, .failure "internal server error")) := by
  refine ⟨rfl, ?_, ?_⟩ <;> intro req h <;> simp [handleCEP, h]

/-- Evaluation of the C6 theorem on one run per failure class. -/
theorem handleCEP_error_map_witness :
    handleCEP none (.response 200 (some (0 : Nat))) =
      (422, .failure "invalid zipcode") ∧
    handleCEP (some { cep := "abcd1234" }) (.response 200 (some (0 : Nat))) =
      (422, .failure "invalid zipcode") ∧
    handleCEP (some { cep := "01310100" })
      (.transportFailure : HTTPResult (Option Nat)) =
        (500, .failure "internal server error") :=
  ⟨(handleCEP_error_map Nat (.response 200 (some 0))).1,
   (handleCEP_error_map Nat (.response 200 (some 0))).2.1
     { cep := "abcd1234" } rfl,
   (handleCEP_error_map Nat (.response 200 (some 0))).2.2
     { cep := "01310100" } rfl⟩

/-! ### C7: shape of a successful lookup (corrected) -/

/-- C7 counterexample: a lookup classified as a success can carry an empty
locality name; fetchCEPInfo only checks that the body decodes and that
erro is not true, never that localidade is non-empty. -/
theorem fetchCEPInfo_empty_locality_counterexample :
    fetchCEPInfo (.response 200 (some lookupEmptyCity)) = .ok lookupEmptyCity ∧
    lookupEmptyCity.localidade = "" :=
  ⟨rfl, rfl⟩

/-- C7 amended: whenever fetchCEPInfo classifies the lookup as a success,
the returned record is the collaborator's decoded body itself, with
erro = false; its locality name is taken verbatim from that body, so it is
non-empty exactly when the collaborator sent a non-empty localidade
field — the code itself never enforces non-emptiness. -/
theorem fetchCEPInfo_success_shape (call : HTTPResult (Option ViaCEPResponse))
    (r : ViaCEPResponse) (h : fetchCEPInfo call = .ok r) :
    r.erro = false ∧ ∃ status, call = .response status (some r) := by
  rcases call with _ | ⟨status, body⟩
  · exact absurd h (by simp [fetchCEPInfo])
  · rcases body with _ | resp
    · exact absurd h (by simp [fetchCEPInfo])
    · simp only [fetchCEPInfo] at h
      split at h
      · exact Except.noConfusion h
      · injection h with hr
        subst hr
        exact ⟨by simp_all, status, rfl⟩

/-- Evaluation of the amended C7 theorem on the Sao Paulo lookup. -/
theorem fetchCEPInfo_success_shape_witness :
    lookupSaoPaulo.erro = false ∧
    ∃ status, (.response 200 (some lookupSaoPaulo) :
      HTTPResult (Option ViaCEPResponse)) = .response status (some lookupSaoPaulo) :=
  fetchCEPInfo_success_shape (.response 200 (some lookupSaoPaulo))
    lookupSaoPaulo rfl

/-! ### C8: determinism under the no-credential configuration -/

/-- C8: with no weather credential configured, handleWeather is a function
of the request and the lookup response alone: two runs with the same
decoded request and the same lookup response return the same status,
city and temperatures whatever the weather collaborator would have done,
and any 200 result carries Celsius exactly 22.5. -/
theorem handleWeather_no_credential_deterministic (decoded : Option CEPRequest)
    (cepCall : HTTPResult (Option ViaCEPResponse))
    (call1 call2 : HTTPResult (Option WeatherAPIResponse)) :
    handleWeather decoded cepCall { apiKey := "", call := call1 } =
      handleWeather decoded cepCall { apiKey := "", call := call2 } ∧
    ∀ w, (handleWeather decoded cepCall { apiKey := "", call := call1 }).2 =
      .success w → w.tempC = 22.5 := by
  have hw : ∀ c : HTTPResult (Option WeatherAPIResponse),
      fetchWeatherInfo { apiKey := "", call := c } =
        (false, .ok { tempC := 22.5 }) := by
    intro c
    unfold fetchWeatherInfo
    rw [if_pos (Or.inl rfl)]
  constructor
  · rcases decoded with _ | req
    · rfl
    · simp only [handleWeather, hw]
  · intro w hsucc
    rcases decoded with _ | req
    · simp [handleWeather] at hsucc
    · simp only [handleWeather, hw] at hsucc
      split at hsucc
      · simp at hsucc
      · split at hsucc
        · simp at hsucc
        · simp only [] at hsucc
          injection hsucc with hcw
          subst hcw
          rfl

/-- Evaluation of the C8 theorem: identical lookup responses, two
different would-be weather calls, no credential. -/
theorem handleWeather_no_credential_deterministic_witness :
    (handleWeather (some { cep := "01310100" })
      (.response 200 (some lookupSaoPaulo))
      { apiKey := "", call := .transportFailure } =
     handleWeather (some { cep := "01310100" })
      (.response 200 (some lookupSaoPaulo))
      { apiKey := "", call := .response 500 none }) ∧
    fallbackSaoPauloResult.tempC = 22.5 :=
  ⟨(handleWeather_no_credential_deterministic (some { cep := "01310100" })
      (.response 200 (some lookupSaoPaulo)) .transportFailure
      (.response 500 none)).1,
   (handleWeather_no_credential_deterministic (some { cep := "01310100" })
      (.response 200 (some lookupSaoPaulo)) .transportFailure
      (.response 500 none)).2 fallbackSaoPauloResult rfl⟩

/-! ### C9: the edge discards the status of an undecodable body -/

/-- C9: when the forwarding call succeeds at the transport level but the
response body is not valid JSON, handleCEP discards service-b's status
code and answers 500 "internal server error", whatever that status was. -/
theorem handleCEP_undecodable_body (b : Type) (req : CEPRequest)
    (status : Nat) (h : validateCEP req.cep = true) :
    handleCEP (some req) (.response status (none : Option b)) =
      (500, .failure "internal server error") := by
  simp [handleCEP, h]

/-- Evaluation of the C9 theorem at the success status 200. -/
theorem handleCEP_undecodable_body_witness :
    handleCEP (some { cep := "01310100" })
      (.response 200 (none : Option Nat)) =
        (500, .failure "internal server error") :=
  handleCEP_undecodable_body Nat { cep := "01310100" } 200 rfl

/-! ### C10: the lookup stage never inspects the status code -/

/-- C10: fetchCEPInfo is independent of the HTTP status of the lookup
response: any body that decodes with erro not true is a success whatever
the status (2xx or not), and only transport failure, decode failure and
erro = true produce errors. -/
theorem fetchCEPInfo_ignores_status :
    (∀ status status2 body, fetchCEPInfo (.response status body) =
      fetchCEPInfo (.response status2 body)) ∧
    (∀ status body, body.erro = false →
      fetchCEPInfo (.response status (some body)) = .ok body) ∧
    (fetchCEPInfo .transportFailure = .error .transport) ∧
    (∀ status, fetchCEPInfo (.response status none) = .error .decode) ∧
    (∀ status body, body.erro = true →
      fetchCEPInfo (.response status (some body)) = .error .notFound) := by
  refine ⟨fun _ _ _ => rfl, ?_, rfl, fun _ => rfl, ?_⟩ <;>
    intro status body h <;> simp [fetchCEPInfo, h]

/-- Evaluation of the C10 theorem: the same decodable body succeeds under
status 200 and under status 404, and each error class is produced. -/
theorem fetchCEPInfo_ignores_status_witness :
    (fetchCEPInfo (.response 200 (some lookupSaoPaulo)) =
      fetchCEPInfo (.response 404 (some lookupSaoPaulo))) ∧
    fetchCEPInfo (.response 404 (some lookupSaoPaulo)) = .ok lookupSaoPaulo ∧
    fetchCEPInfo .transportFailure = .error .transport ∧
    fetchCEPInfo (.response 200 none) = .error .decode ∧
    fetchCEPInfo (.response 200 (some lookupNotFound)) = .error .notFound :=
  ⟨fetchCEPInfo_ignores_status.1 200 404 (some lookupSaoPaulo),
   fetchCEPInfo_ignores_status.2.1 404 lookupSaoPaulo rfl,
   fetchCEPInfo_ignores_status.2.2.1,
   fetchCEPInfo_ignores_status.2.2.2.1 200,
   fetchCEPInfo_ignores_status.2.2.2.2 200 lookupNotFound rfl⟩
